import Mathlib

/-!
Shallow embedding of the Teller backend server
(`src/backend/updated_teller_server.js`, with the second variant
`src/unnamed/part_000` where the two differ), and proofs about it.

Host-environment operations that the JavaScript code calls but does not
define (JavaScript `Date` parsing, `Buffer.from(·, 'base64')` decoding,
`JSON.parse` of the request body) are modelled as explicit parameters or
as pre-classified outcomes; everything the repository's own code does is
embedded directly.
-/

namespace Teller

/-- A transaction as the server sees it: an opaque JSON object of which the
server only reads the `date` field (`new Date(tx.date)`); `none` models an
absent field. -/
structure Transaction where
  date : Option String
deriving DecidableEq, Repr

/-- The `links` object of an account; the server only reads
`links.transactions`. -/
structure Links where
  transactions : Option String
deriving DecidableEq, Repr

/-- The `institution` object of an account; the server only reads
`institution.name`. -/
structure Institution where
  name : Option String
deriving DecidableEq, Repr

/-- An account returned by the upstream `/accounts` call; the server reads
`id`, `institution.name` and `links.transactions`. -/
structure Account where
  id : String
  institution : Option Institution
  links : Option Links
deriving DecidableEq, Repr

/-- One element pushed onto `results` in the sync loop:
`{ accountId, institution, transactions }`. -/
structure AccountResult where
  accountId : String
  institution : Option String
  transactions : List Transaction
deriving DecidableEq, Repr

/-- The object pushed onto the store on a successful sync:
`{ accessToken, timestamp, accounts }`. -/
structure SyncRecord where
  accessToken : String
  timestamp : String
  accounts : List AccountResult
deriving DecidableEq, Repr

/-- `filterRecentTransactions` from the source: `transactions.filter(tx =>
new Date(tx.date) >= cutoff)`. The JavaScript `Date` constructor is
modelled by the `parse` parameter: `parse s = none` models an Invalid Date
(whose comparison `txDate >= cutoff` is `NaN >= cutoff`, i.e. false), and a
missing `date` field (`new Date(undefined)`) is likewise invalid. The
`try`/`catch` in the source never fires (the `Date` constructor does not
throw), matching this total function. -/
def filterRecentTransactions (parse : String → Option Int) (cutoff : Int)
    (transactions : List Transaction) : List Transaction :=
  transactions.filter fun tx =>
    match tx.date.bind parse with
    | some d => decide (cutoff ≤ d)
    | none => false

/-- The empty string, the only falsy value of a JavaScript string. -/
def emptyStr : String := ""

/-- JavaScript truthiness applied to an optional string value: `undefined`
and the empty string are falsy. -/
def jsTruthy (o : Option String) : Option String :=
  match o with
  | none => none
  | some s => if s = emptyStr then none else some s

/-- The JavaScript `a || b` operator on optional string values: yields `a`
when `a` is truthy, otherwise `b`. -/
def jsOr (a b : Option String) : Option String :=
  match a with
  | none => b
  | some s => if s = emptyStr then b else some s

/-- The parsed JSON body of a sync request; the server reads the
`access_token` and `accessToken` keys. -/
structure Payload where
  access_token : Option String
  accessToken : Option String
deriving DecidableEq, Repr

/-- Token extraction in `src/backend/updated_teller_server.js`:
`const accessToken = payload.access_token || payload.accessToken;
if (!accessToken) throw ...`. Returns `none` exactly when the handler
throws the missing-token error. -/
def extractTokenUpdated (p : Payload) : Option String :=
  jsTruthy (jsOr p.access_token p.accessToken)

/-- Token extraction in `src/unnamed/part_000`:
`const accessToken = payload.access_token; if (!accessToken) throw ...`. -/
def extractTokenPart000 (p : Payload) : Option String :=
  jsTruthy p.access_token

/-- The truthiness test `account.links && account.links.transactions` from
the sync loop: yields the transactions link when the account exposes one
(a present, non-empty string), `none` otherwise. -/
def linkOf (a : Account) : Option String :=
  match a.links with
  | none => none
  | some lk =>
    match lk.transactions with
    | none => none
    | some t => if t = emptyStr then none else some t

/-- `account.institution ? account.institution.name : undefined` from the
sync loop. -/
def instOf (a : Account) : Option String :=
  a.institution.bind Institution.name

/-- The per-account loop of the sync handler: for each account in upstream
order, if it exposes a transactions link, fetch that link (`txFetch`
models `callTeller`), filter the transactions, and push an
`AccountResult`; accounts without a link are skipped. Any fetch failure
rejects the whole loop (the handler then answers 500). -/
def syncLoop (txFetch : String → Except String (List Transaction))
    (parse : String → Option Int) (cutoff : Int) :
    List Account → Except String (List AccountResult)
  | [] => Except.ok []
  | a :: rest =>
    match linkOf a with
    | none => syncLoop txFetch parse cutoff rest
    | some l =>
      match txFetch l with
      | Except.error e => Except.error e
      | Except.ok txs =>
        match syncLoop txFetch parse cutoff rest with
        | Except.error e => Except.error e
        | Except.ok res =>
          Except.ok ({ accountId := a.id, institution := instOf a,
                       transactions := filterRecentTransactions parse cutoff txs } :: res)

/-- The content of the backing data file, pre-classified by how
`fs.existsSync` / `JSON.parse` / `store.push` treat it: absent, present
but not valid JSON, valid JSON that is not an array, or a JSON array of
records. -/
inductive FileContent where
  | absent
  | corrupt
  | nonArray
  | records (l : List SyncRecord)
deriving DecidableEq, Repr

/-- The file-system state the persistence code runs against: whether the
directory containing the data file exists, whether a write would succeed
(permissions, disk space), and the file's content. -/
structure StoreState where
  dirOk : Bool
  writeOk : Bool
  file : FileContent
deriving DecidableEq, Repr

/-- What `JSON.parse(fs.readFileSync(DATA_FILE))` guarded by
`fs.existsSync` yields: a JavaScript value that is either an array of
records or some non-array value. -/
inductive LoadVal where
  | arr (l : List SyncRecord)
  | notArr
deriving DecidableEq, Repr

/-- The read step of the persistence block in the sync route
(`let store = []; if (fs.existsSync(DATA_FILE)) store = JSON.parse(...)`):
a missing file yields the empty array, a corrupt file makes `JSON.parse`
throw (`Except.error`), and a well-formed file yields its value. -/
def appendLoadStep (f : FileContent) : Except Unit LoadVal :=
  match f with
  | FileContent.absent => Except.ok (LoadVal.arr [])
  | FileContent.corrupt => Except.error ()
  | FileContent.nonArray => Except.ok LoadVal.notArr
  | FileContent.records l => Except.ok (LoadVal.arr l)

/-- The whole persistence block of the sync route: read the store, push
the record, rewrite the file; any throw (parse failure, `push` on a
non-array, write failure, missing directory) is caught by
`catch (storageErr)` and only logged, leaving the state unchanged. The
write succeeds only when the containing directory exists and the write
itself can succeed — the code never creates the directory. -/
def appendRecord (st : StoreState) (r : SyncRecord) : StoreState :=
  match appendLoadStep st.file with
  | Except.error _ => st
  | Except.ok LoadVal.notArr => st
  | Except.ok (LoadVal.arr l) =>
    if st.dirOk && st.writeOk then
      { st with file := FileContent.records (l ++ [r]) }
    else st

/-- The read of stored data in the admin route:
`let entries = []; if (exists) { try { entries = JSON.parse(...) } catch
{ /* ignore */ } }` — missing and corrupt files both leave `entries` as
the empty array; a well-formed non-array value is kept as-is. -/
def adminEntries (f : FileContent) : LoadVal :=
  match f with
  | FileContent.absent => LoadVal.arr []
  | FileContent.corrupt => LoadVal.arr []
  | FileContent.nonArray => LoadVal.notArr
  | FileContent.records l => LoadVal.arr l

/-- A JSON value, the parsed form of a response body produced by
`JSON.stringify`. -/
inductive JVal where
  | null
  | str (s : String)
  | arr (l : List JVal)
  | obj (fields : List (String × JVal))

/-- `JSON.stringify` of an optional field: an `undefined` property is
omitted from the output object. -/
def encOptField (k : String) (v : Option String) : List (String × JVal) :=
  match v with
  | some s => [(k, JVal.str s)]
  | none => []

/-- JSON key `date`. -/
def dateKey : String := "date"

/-- JSON key `accountId`. -/
def accountIdKey : String := "accountId"

/-- JSON key `institution`. -/
def institutionKey : String := "institution"

/-- JSON key `transactions`. -/
def transactionsKey : String := "transactions"

/-- JSON key `accessToken`. -/
def accessTokenKey : String := "accessToken"

/-- JSON key `timestamp`. -/
def timestampKey : String := "timestamp"

/-- JSON key `accounts`. -/
def accountsKey : String := "accounts"

/-- JSON encoding of a transaction object (the server passes transactions
through verbatim; only the `date` field is modelled). -/
def encTx (t : Transaction) : JVal :=
  JVal.obj (encOptField dateKey t.date)

/-- JSON encoding of an `AccountResult` as `JSON.stringify` produces it. -/
def encResult (r : AccountResult) : JVal :=
  JVal.obj ([(accountIdKey, JVal.str r.accountId)]
    ++ encOptField institutionKey r.institution
    ++ [(transactionsKey, JVal.arr (r.transactions.map encTx))])

/-- JSON encoding of a `SyncRecord` as `JSON.stringify` would produce it
(what the response body would be if the server returned the stored
record). -/
def encRecord (rec : SyncRecord) : JVal :=
  JVal.obj [(accessTokenKey, JVal.str rec.accessToken),
            (timestampKey, JVal.str rec.timestamp),
            (accountsKey, JVal.arr (rec.accounts.map encResult))]

/-- The HTTP response of the sync route: `200` with a JSON body, or `500`
with `{ error: message }`. -/
inductive SyncResponse where
  | ok200 (body : JVal)
  | err500 (message : String)

/-- The error message of the missing-token throw. -/
def missingTokenMsg : String := "Missing access_token"

/-- The `/api/teller/sync` handler of
`src/backend/updated_teller_server.js`, from `JSON.parse(body || '{}')`
to the final response. `body` is the outcome of parsing the request body
(`Except.error` models a `JSON.parse` throw), `accountsResp` the outcome
of `callTeller('/accounts', ...)`, `txFetch` the outcome of
`callTeller(link, ...)` per link, `parse`/`cutoff` the date model of
`filterRecentTransactions`, `now` the `new Date().toISOString()` value
and `st` the file-system state. Returns the response and the state after
the persistence block; every throw before persistence yields a 500 with
the error's message and leaves the state untouched. -/
def handleSync (body : Except String Payload)
    (accountsResp : Except String (List Account))
    (txFetch : String → Except String (List Transaction))
    (parse : String → Option Int) (cutoff : Int) (now : String)
    (st : StoreState) : SyncResponse × StoreState :=
  match body with
  | Except.error m => (SyncResponse.err500 m, st)
  | Except.ok payload =>
    match extractTokenUpdated payload with
    | none => (SyncResponse.err500 missingTokenMsg, st)
    | some accessToken =>
      match accountsResp with
      | Except.error m => (SyncResponse.err500 m, st)
      | Except.ok accounts =>
        match syncLoop txFetch parse cutoff accounts with
        | Except.error m => (SyncResponse.err500 m, st)
        | Except.ok results =>
          (SyncResponse.ok200 (JVal.arr (results.map encResult)),
           appendRecord st ⟨accessToken, now, results⟩)

/-- The result list a fully successful sync produces for a given account
list, when every transactions-link fetch succeeds with `f link`: one
`AccountResult` per account exposing a link, in upstream order. -/
def syncResultsFor (parse : String → Option Int) (cutoff : Int)
    (f : String → List Transaction) (accounts : List Account) : List AccountResult :=
  (accounts.filter fun a => (linkOf a).isSome).map fun a =>
    { accountId := a.id, institution := instOf a,
      transactions := filterRecentTransactions parse cutoff (f ((linkOf a).getD emptyStr)) }

/-- The response of the `GET /admin` route, by status. -/
inductive AdminResponse where
  | unauthorized (wwwAuthenticate : String)
  | forbidden
  | badRequest
  | okHtml
deriving DecidableEq, Repr

/-- The challenge sent with the 401: `WWW-Authenticate: Basic
realm="Admin"`. -/
def basicChallenge : String := "Basic realm=\"Admin\""

/-- The scheme marker the code tests with
`authHeader.startsWith('Basic ')`. -/
def basicMarker : String := "Basic "

/-- `s.startsWith(p)` on strings, embedded on the character lists. -/
def strStartsWith (s p : String) : Bool :=
  List.isPrefixOf p.data s.data

/-- The space character, the separator of `authHeader.split(' ')`. -/
def spaceChar : Char := ' '

/-- Splitting a character list at every space, as
`String.prototype.split(' ')` does (adjacent separators yield empty
pieces; structural recursion on the remaining characters, `acc` holds the
current piece reversed). -/
def splitChars : List Char → List Char → List (List Char)
  | [], acc => [acc.reverse]
  | c :: rest, acc =>
    if c = spaceChar then acc.reverse :: splitChars rest []
    else splitChars rest (c :: acc)

/-- `authHeader.split(' ')` from the admin route. -/
def splitSpaces (s : String) : List String :=
  (splitChars s.data []).map List.asString

/-- The `GET /admin` handler's authentication dispatch. `decode` models
`Buffer.from(encoded, 'base64').toString()` followed by
`decoded.split(':')` and the `[user, pass]` destructuring: it yields the
user and the (possibly absent) password, or throws. A missing header or
one not starting with `Basic ` answers 401 with the challenge; a throw
anywhere in the decode block answers 400; a user/password mismatch
answers 403; matching credentials reach the 200 HTML report. -/
def handleAdmin (decode : String → Except Unit (String × Option String))
    (adminUser adminPass : String) (authHeader : Option String) : AdminResponse :=
  match authHeader with
  | none => AdminResponse.unauthorized basicChallenge
  | some h =>
    if strStartsWith h basicMarker then
      match (splitSpaces h)[1]? with
      | none => AdminResponse.badRequest
      | some enc =>
        match decode enc with
        | Except.error _ => AdminResponse.badRequest
        | Except.ok (user, pass) =>
          if user ≠ adminUser ∨ pass ≠ some adminPass then AdminResponse.forbidden
          else AdminResponse.okHtml
    else AdminResponse.unauthorized basicChallenge

/-- A fixed demonstration date table used by concrete witnesses: the
string of a small numeral stands for a date at that many days. -/
def parseDemo (s : String) : Option Int :=
  if s = ("5") then some 5 else if s = ("2") then some 2 else none

lemma syncLoop_total_ok (parse : String → Option Int) (cutoff : Int)
    (f : String → List Transaction) (accounts : List Account) :
    syncLoop (fun l => Except.ok (f l)) parse cutoff accounts =
      Except.ok (syncResultsFor parse cutoff f accounts) := by
  induction accounts with
  | nil => rfl
  | cons a rest ih =>
    cases h : linkOf a with
    | none =>
      simp [syncLoop, h, syncResultsFor, List.filter_cons] at ih ⊢
      exact ih
    | some l =>
      simp [syncLoop, h, syncResultsFor, List.filter_cons] at ih ⊢
      simp [ih]

lemma appendRecord_writeFail (d : Bool) (fc : FileContent) (r : SyncRecord) :
    appendRecord ⟨d, false, fc⟩ r = ⟨d, false, fc⟩ := by
  cases fc <;> simp [appendRecord, appendLoadStep]

/-- C2: for every upstream account list whose per-account transaction
fetches all succeed, the sync loop succeeds and produces exactly one
`AccountResult` per account that exposes a transactions link, in upstream
order (same length and same account-id sequence as the filtered account
list); accounts without a link contribute nothing and cause no error. -/
theorem c2_accounts_results (parse : String → Option Int) (cutoff : Int)
    (f : String → List Transaction) (accounts : List Account) :
    syncLoop (fun l => Except.ok (f l)) parse cutoff accounts =
      Except.ok (syncResultsFor parse cutoff f accounts) ∧
    (syncResultsFor parse cutoff f accounts).length =
      (accounts.filter fun a => (linkOf a).isSome).length ∧
    (syncResultsFor parse cutoff f accounts).map AccountResult.accountId =
      (accounts.filter fun a => (linkOf a).isSome).map Account.id := by
  refine ⟨syncLoop_total_ok parse cutoff f accounts, ?_, ?_⟩
  · simp [syncResultsFor]
  · simp [syncResultsFor, List.map_map]

/-- C3: a transaction is kept by `filterRecentTransactions` iff its date
parses to a valid date at or after the cutoff (no upper bound), and a
transaction whose date is missing or unparseable is dropped without
affecting the filtering of the transactions around it. -/
theorem c3_filter_retention (parse : String → Option Int) (cutoff : Int)
    (txs : List Transaction) (tx : Transaction) :
    (tx ∈ filterRecentTransactions parse cutoff txs ↔
      tx ∈ txs ∧ ∃ d, tx.date.bind parse = some d ∧ cutoff ≤ d) ∧
    (∀ pre post bad, (Transaction.date bad).bind parse = none →
      filterRecentTransactions parse cutoff (pre ++ bad :: post) =
        filterRecentTransactions parse cutoff pre ++
          filterRecentTransactions parse cutoff post) := by
  constructor
  · rw [filterRecentTransactions, List.mem_filter]
    cases hd : tx.date.bind parse with
    | none => simp [hd]
    | some d => simp [hd]
  · intro pre post bad hbad
    simp [filterRecentTransactions, List.filter_append, List.filter_cons, hbad]

/-- C3 witness: a concrete run of the retention characterisation — the
transaction dated `5` is kept against cutoff `3`, and the undated
transaction in the middle of a sequence drops out without disturbing its
neighbours. -/
theorem c3_filter_retention_witness :
    ((⟨some ("5")⟩ : Transaction) ∈
        filterRecentTransactions parseDemo 3 [⟨some ("5")⟩, ⟨none⟩] ↔
      (⟨some ("5")⟩ : Transaction) ∈ ([⟨some ("5")⟩, ⟨none⟩] : List Transaction) ∧
        ∃ d, (some ("5") : Option String).bind parseDemo = some d ∧ (3 : Int) ≤ d) ∧
    filterRecentTransactions parseDemo 3 ([⟨some ("5")⟩] ++ ⟨none⟩ :: [⟨some ("2")⟩]) =
      filterRecentTransactions parseDemo 3 [⟨some ("5")⟩] ++
        filterRecentTransactions parseDemo 3 [⟨some ("2")⟩] :=
  ⟨(c3_filter_retention parseDemo 3 [⟨some ("5")⟩, ⟨none⟩] ⟨some ("5")⟩).1,
   (c3_filter_retention parseDemo 3 [] ⟨none⟩).2 [⟨some ("5")⟩] [⟨some ("2")⟩] ⟨none⟩ (by decide)⟩

/-- C4: the recency filter is idempotent — filtering its own output with
the same parse function and cutoff returns it unchanged — and its output
is a sublist of its input (order-preserving selection from a fresh
list). -/
theorem c4_filter_idempotent (parse : String → Option Int) (cutoff : Int)
    (txs : List Transaction) :
    filterRecentTransactions parse cutoff (filterRecentTransactions parse cutoff txs) =
      filterRecentTransactions parse cutoff txs ∧
    (filterRecentTransactions parse cutoff txs).Sublist txs := by
  constructor
  · rw [filterRecentTransactions, filterRecentTransactions, List.filter_filter]
    simp [Bool.and_self]
  · exact List.filter_sublist txs

/-- C1 counterexample: a concrete fully-successful sync (token `tok`, no
accounts, healthy store) appends the record
`{accessToken := tok, timestamp := t1, accounts := []}` to the store, yet
the 200 response body is the JSON array of results, which is not the JSON
encoding of that appended record. -/
theorem c1_response_body_counterexample :
    (handleSync (Except.ok ⟨some ("tok"), none⟩) (Except.ok [])
        (fun _ => Except.ok []) parseDemo 0 ("t1")
        ⟨true, true, FileContent.records []⟩).snd =
      ⟨true, true, FileContent.records [⟨("tok"), ("t1"), []⟩]⟩ ∧
    (handleSync (Except.ok ⟨some ("tok"), none⟩) (Except.ok [])
        (fun _ => Except.ok []) parseDemo 0 ("t1")
        ⟨true, true, FileContent.records []⟩).fst =
      SyncResponse.ok200 (JVal.arr []) ∧
    SyncResponse.ok200 (JVal.arr []) ≠
      SyncResponse.ok200 (encRecord ⟨("tok"), ("t1"), []⟩) := by
  refine ⟨by decide, rfl, ?_⟩
  intro h
  injection h with h1
  exact JVal.noConfusion h1

/-- C1 (amended): on a fully successful sync against a healthy array-backed
store, the handler appends the constructed SyncRecord (token, timestamp,
results) to the store, but the 200 response body is only the JSON array
encoding of that record's `accounts` field — the results list — not the
record itself. -/
theorem c1_response_body_amended (p : Payload) (tok : String)
    (accounts : List Account) (f : String → List Transaction)
    (parse : String → Option Int) (cutoff : Int) (now : String)
    (l : List SyncRecord) (h : extractTokenUpdated p = some tok) :
    handleSync (Except.ok p) (Except.ok accounts) (fun u => Except.ok (f u))
        parse cutoff now ⟨true, true, FileContent.records l⟩ =
      (SyncResponse.ok200 (JVal.arr
          ((SyncRecord.accounts ⟨tok, now, syncResultsFor parse cutoff f accounts⟩).map encResult)),
       ⟨true, true, FileContent.records
          (l ++ [⟨tok, now, syncResultsFor parse cutoff f accounts⟩])⟩) := by
  simp [handleSync, h, syncLoop_total_ok, appendRecord, appendLoadStep]

/-- C1 witness: the amended statement at the concrete counterexample
input. -/
theorem c1_response_body_amended_witness :
    handleSync (Except.ok ⟨some ("tok"), none⟩) (Except.ok [])
        (fun _ => Except.ok []) parseDemo 0 ("t1")
        ⟨true, true, FileContent.records []⟩ =
      (SyncResponse.ok200 (JVal.arr []),
       ⟨true, true, FileContent.records [⟨("tok"), ("t1"), []⟩]⟩) :=
  c1_response_body_amended ⟨some ("tok"), none⟩ ("tok") [] (fun _ => [])
    parseDemo 0 ("t1") [] rfl

/-- C5 counterexample: at the read step of the sync route's append, a
corrupt (non-JSON) backing file is not treated as an empty sequence — the
parse throw aborts the whole append, so the appended record never reaches
the file and the file stays corrupt, instead of becoming the one-record
array the claimed load-as-empty semantics would produce. -/
theorem c5_append_read_counterexample :
    appendRecord ⟨true, true, FileContent.corrupt⟩ ⟨("tok"), ("t0"), []⟩ ≠
      ⟨true, true, FileContent.records [⟨("tok"), ("t0"), []⟩]⟩ ∧
    appendRecord ⟨true, true, FileContent.corrupt⟩ ⟨("tok"), ("t0"), []⟩ =
      ⟨true, true, FileContent.corrupt⟩ := by
  constructor
  · decide
  · decide

/-- C5 (amended): the stored-data read returns the empty sequence for a
missing file at both read sites, and for a corrupt file at the admin
site; but at the read step of append a corrupt file makes the read throw,
which aborts the append (caught and logged) — it is not treated as an
empty sequence there. -/
theorem c5_load_amended :
    adminEntries FileContent.absent = LoadVal.arr [] ∧
    adminEntries FileContent.corrupt = LoadVal.arr [] ∧
    appendLoadStep FileContent.absent = Except.ok (LoadVal.arr []) ∧
    appendLoadStep FileContent.corrupt = Except.error () ∧
    (∀ (d w : Bool) (r : SyncRecord),
      appendRecord ⟨d, w, FileContent.corrupt⟩ r = ⟨d, w, FileContent.corrupt⟩) := by
  refine ⟨rfl, rfl, rfl, rfl, ?_⟩
  intro d w r
  simp [appendRecord, appendLoadStep]

/-- C6: a persistence failure never fails the in-flight sync — when the
upstream fetches all succeed, the 200 response with the full results is
returned for every file-system state (in particular one whose write
fails), and a failing write leaves the store untouched (the failure is
only logged). -/
theorem c6_persistence_failure_kept_200 (p : Payload) (tok : String)
    (accounts : List Account) (f : String → List Transaction)
    (parse : String → Option Int) (cutoff : Int) (now : String)
    (st : StoreState) (h : extractTokenUpdated p = some tok) :
    (handleSync (Except.ok p) (Except.ok accounts) (fun u => Except.ok (f u))
        parse cutoff now st).fst =
      SyncResponse.ok200 (JVal.arr ((syncResultsFor parse cutoff f accounts).map encResult)) ∧
    (st.writeOk = false →
      (handleSync (Except.ok p) (Except.ok accounts) (fun u => Except.ok (f u))
          parse cutoff now st).snd = st) := by
  constructor
  · simp [handleSync, h, syncLoop_total_ok]
  · intro hw
    obtain ⟨d, w, fc⟩ := st
    cases hw
    simp [handleSync, h, syncLoop_total_ok, appendRecord_writeFail]

/-- C6 witness: a concrete sync against a store whose write fails (e.g.
permission denied) still answers 200 with the results and leaves the
store unchanged. -/
theorem c6_persistence_failure_kept_200_witness :
    (handleSync (Except.ok ⟨some ("tok"), none⟩) (Except.ok [])
        (fun _ => Except.ok []) parseDemo 0 ("t1")
        ⟨true, false, FileContent.records []⟩).fst =
      SyncResponse.ok200 (JVal.arr []) ∧
    (handleSync (Except.ok ⟨some ("tok"), none⟩) (Except.ok [])
        (fun _ => Except.ok []) parseDemo 0 ("t1")
        ⟨true, false, FileContent.records []⟩).snd =
      ⟨true, false, FileContent.records []⟩ :=
  ⟨(c6_persistence_failure_kept_200 ⟨some ("tok"), none⟩ ("tok") [] (fun _ => [])
      parseDemo 0 ("t1") ⟨true, false, FileContent.records []⟩ rfl).1,
   (c6_persistence_failure_kept_200 ⟨some ("tok"), none⟩ ("tok") [] (fun _ => [])
      parseDemo 0 ("t1") ⟨true, false, FileContent.records []⟩ rfl).2 rfl⟩

/-- C7 counterexample: when the directory that should contain the backing
file does not exist, three sequential appends starting from an absent
store leave the file absent — the records are lost and no directory is
created, refuting the claim that append creates a missing containing
directory and that the file afterwards holds the three records. -/
theorem c7_append_counterexample :
    appendRecord (appendRecord (appendRecord ⟨false, true, FileContent.absent⟩
        ⟨("a"), ("1"), []⟩) ⟨("b"), ("2"), []⟩) ⟨("c"), ("3"), []⟩ =
      ⟨false, true, FileContent.absent⟩ ∧
    appendRecord (appendRecord (appendRecord ⟨false, true, FileContent.absent⟩
        ⟨("a"), ("1"), []⟩) ⟨("b"), ("2"), []⟩) ⟨("c"), ("3"), []⟩ ≠
      ⟨false, true, FileContent.records
        [⟨("a"), ("1"), []⟩, ⟨("b"), ("2"), []⟩, ⟨("c"), ("3"), []⟩]⟩ := by
  constructor
  · decide
  · decide

/-- C7 (amended): provided the containing directory exists and writes
succeed, three sequential appends starting from an absent or empty store
leave the backing file holding exactly those three records in insertion
order (each append loads, appends, and rewrites the full array); append
never creates a missing containing directory — in that case the write
fails and is only logged. -/
theorem c7_sequential_appends_amended (r1 r2 r3 : SyncRecord) :
    appendRecord (appendRecord (appendRecord
        ⟨true, true, FileContent.absent⟩ r1) r2) r3 =
      ⟨true, true, FileContent.records [r1, r2, r3]⟩ ∧
    appendRecord (appendRecord (appendRecord
        ⟨true, true, FileContent.records []⟩ r1) r2) r3 =
      ⟨true, true, FileContent.records [r1, r2, r3]⟩ ∧
    (∀ (w : Bool) (fc : FileContent) (r : SyncRecord),
      (appendRecord ⟨false, w, fc⟩ r).dirOk = false ∧
      (appendRecord ⟨false, w, fc⟩ r).file = fc) := by
  refine ⟨rfl, rfl, ?_⟩
  intro w fc r
  cases fc <;> simp [appendRecord, appendLoadStep]

/-- C8: the admin route's status dispatch — 401 with the Basic challenge
when no header (or no `Basic ` credentials) is supplied, 400 when the
decode block throws on the header, 403 when the decoded credentials do
not match the configured user and password, and the 200 HTML report when
they match. -/
theorem c8_admin_status_dispatch
    (decode : String → Except Unit (String × Option String))
    (aU aP : String) :
    handleAdmin decode aU aP none = AdminResponse.unauthorized basicChallenge ∧
    (∀ h, strStartsWith h basicMarker = false →
      handleAdmin decode aU aP (some h) = AdminResponse.unauthorized basicChallenge) ∧
    (∀ h enc, strStartsWith h basicMarker = true →
      (splitSpaces h)[1]? = some enc → decode enc = Except.error () →
      handleAdmin decode aU aP (some h) = AdminResponse.badRequest) ∧
    (∀ h enc u p2, strStartsWith h basicMarker = true →
      (splitSpaces h)[1]? = some enc → decode enc = Except.ok (u, p2) →
      (u ≠ aU ∨ p2 ≠ some aP) →
      handleAdmin decode aU aP (some h) = AdminResponse.forbidden) ∧
    (∀ h enc, strStartsWith h basicMarker = true →
      (splitSpaces h)[1]? = some enc → decode enc = Except.ok (aU, some aP) →
      handleAdmin decode aU aP (some h) = AdminResponse.okHtml) := by
  refine ⟨rfl, ?_, ?_, ?_, ?_⟩
  · intro h hstart
    simp [handleAdmin, hstart]
  · intro h enc hstart hsplit hdec
    simp [handleAdmin, hstart, hsplit, hdec]
  · intro h enc u p2 hstart hsplit hdec hbad
    simp [handleAdmin, hstart, hsplit, hdec, hbad]
  · intro h enc hstart hsplit hdec
    simp [handleAdmin, hstart, hsplit, hdec]

/-- A decode model for the witness: only the base64 piece `YWJj` decodes,
to the configured credentials. -/
def decodeGood : String → Except Unit (String × Option String) :=
  fun s => if s = ("YWJj") then Except.ok (("admin"), some ("password")) else Except.error ()

/-- A decode model yielding mismatching credentials. -/
def decodeWrong : String → Except Unit (String × Option String) :=
  fun _ => Except.ok (("admin"), some ("wrong"))

/-- A decode model that always throws. -/
def decodeThrow : String → Except Unit (String × Option String) :=
  fun _ => Except.error ()

/-- C8 witness: the dispatch at concrete headers — no header gives 401
with the challenge, a `Bearer` header gives 401, a throwing decode gives
400, wrong credentials give 403 and matching credentials give the 200
report. -/
theorem c8_admin_status_dispatch_witness :
    handleAdmin decodeThrow ("admin") ("password") none =
      AdminResponse.unauthorized basicChallenge ∧
    handleAdmin decodeThrow ("admin") ("password") (some ("Bearer x")) =
      AdminResponse.unauthorized basicChallenge ∧
    handleAdmin decodeThrow ("admin") ("password") (some ("Basic ????")) =
      AdminResponse.badRequest ∧
    handleAdmin decodeWrong ("admin") ("password") (some ("Basic YWJj")) =
      AdminResponse.forbidden ∧
    handleAdmin decodeGood ("admin") ("password") (some ("Basic YWJj")) =
      AdminResponse.okHtml :=
  ⟨(c8_admin_status_dispatch decodeThrow ("admin") ("password")).1,
   (c8_admin_status_dispatch decodeThrow ("admin") ("password")).2.1
     ("Bearer x") (by decide),
   (c8_admin_status_dispatch decodeThrow ("admin") ("password")).2.2.1
     ("Basic ????") ("????") (by decide) (by decide) rfl,
   (c8_admin_status_dispatch decodeWrong ("admin") ("password")).2.2.2.1
     ("Basic YWJj") ("YWJj") ("admin") (some ("wrong")) (by decide) (by decide) rfl
     (Or.inr (by decide)),
   (c8_admin_status_dispatch decodeGood ("admin") ("password")).2.2.2.2
     ("Basic YWJj") ("YWJj") (by decide) (by decide) rfl⟩

/-- C9 counterexample: on the body `{ accessToken: "tok" }` (no
`access_token` key) the two source variants disagree — the updated server
extracts the token while `part_000` finds none and throws the
missing-token error — refuting the claim that both variants implement the
same token-extraction contract. -/
theorem c9_token_extraction_counterexample :
    extractTokenUpdated ⟨none, some ("tok")⟩ = some ("tok") ∧
    extractTokenPart000 ⟨none, some ("tok")⟩ = none ∧
    extractTokenUpdated ⟨none, some ("tok")⟩ ≠
      extractTokenPart000 ⟨none, some ("tok")⟩ := by
  refine ⟨by decide, by decide, by decide⟩

/-- C9 (amended): only the updated server accepts the token under either
key — it prefers a non-empty `access_token`, falls back to `accessToken`,
and fails exactly when neither key holds a non-empty string — while the
`part_000` variant reads only `access_token`; the two extract the same
token whenever `access_token` is present and non-empty. -/
theorem c9_token_extraction_amended (p : Payload) :
    (extractTokenUpdated p = none ↔
      jsTruthy p.access_token = none ∧ jsTruthy p.accessToken = none) ∧
    (∀ t, extractTokenPart000 p = some t ↔ jsTruthy p.access_token = some t) ∧
    (∀ t, jsTruthy p.access_token = some t →
      extractTokenUpdated p = some t ∧ extractTokenPart000 p = some t) ∧
    (jsTruthy p.access_token = none →
      extractTokenUpdated p = jsTruthy p.accessToken) := by
  obtain ⟨a, b⟩ := p
  cases a with
  | none => simp [extractTokenUpdated, extractTokenPart000, jsOr, jsTruthy]
  | some s =>
    by_cases hs : s = emptyStr <;>
      simp [extractTokenUpdated, extractTokenPart000, jsOr, jsTruthy, hs]

/-- C9 witness: the amended characterisation at concrete bodies — with
both keys set the non-empty `access_token` wins in both variants, and
with both keys empty or absent the updated extraction fails. -/
theorem c9_token_extraction_amended_witness :
    (extractTokenUpdated ⟨some ("tokA"), some ("tokB")⟩ = some ("tokA") ∧
      extractTokenPart000 ⟨some ("tokA"), some ("tokB")⟩ = some ("tokA")) ∧
    extractTokenUpdated ⟨some (""), none⟩ = none :=
  ⟨(c9_token_extraction_amended ⟨some ("tokA"), some ("tokB")⟩).2.2.1
     ("tokA") (by decide),
   (c9_token_extraction_amended ⟨some (""), none⟩).1.mpr ⟨by decide, rfl⟩⟩

/-- C10: when the backing file holds well-formed JSON that is not an
array, a fully successful sync still answers 200 with the full results,
while the `push` on the non-array value throws inside the persistence
block, so the append is silently skipped and the file (and whole store
state) is left unchanged. -/
theorem c10_nonarray_store_skipped (p : Payload) (tok : String)
    (accounts : List Account) (f : String → List Transaction)
    (parse : String → Option Int) (cutoff : Int) (now : String)
    (d w : Bool) (h : extractTokenUpdated p = some tok) :
    handleSync (Except.ok p) (Except.ok accounts) (fun u => Except.ok (f u))
        parse cutoff now ⟨d, w, FileContent.nonArray⟩ =
      (SyncResponse.ok200 (JVal.arr ((syncResultsFor parse cutoff f accounts).map encResult)),
       ⟨d, w, FileContent.nonArray⟩) := by
  simp [handleSync, h, syncLoop_total_ok, appendRecord, appendLoadStep]

/-- C10 witness: a concrete sync against an object-valued (non-array)
backing file answers 200 with the results and leaves the file
unchanged. -/
theorem c10_nonarray_store_skipped_witness :
    handleSync (Except.ok ⟨some ("tok"), none⟩) (Except.ok [])
        (fun _ => Except.ok []) parseDemo 0 ("t1")
        ⟨true, true, FileContent.nonArray⟩ =
      (SyncResponse.ok200 (JVal.arr []), ⟨true, true, FileContent.nonArray⟩) :=
  c10_nonarray_store_skipped ⟨some ("tok"), none⟩ ("tok") [] (fun _ => [])
    parseDemo 0 ("t1") true true rfl

end Teller
